import Mathlib

/-!
Shallow embedding of `scripts/visualization.py`: a script that builds
colored axis-aligned box meshes and camera-frustum line sets from JSON
records and hands them to a 3D viewer.

Numeric conventions: the script computes with Python floats; the pure
geometric arithmetic (no trigonometry) is embedded over `ℚ`, where every
operation the script performs is exact, so that definitions evaluate.
The Euler-angle rotation matrix of the driver uses `cos`/`sin` and is
embedded over `ℝ`.

3D vectors are `Fin 3 → ℚ`; 3x3 matrices are Mathlib matrices.
-/

abbrev Vec3 : Type := Fin 3 → ℚ

/-- Embedding of an Open3D `TriangleMesh` box by its geometric content:
`create_box(w, h, d)` produces the axis-aligned box spanning `[0,w] x [0,h] x [0,d]`
(one corner at the origin, extending in the positive direction on each axis),
so a box mesh is represented by its minimum corner, maximum corner and
uniform paint color. -/
structure Box where
  bmin : Vec3
  bmax : Vec3
  color : Vec3
  deriving DecidableEq

/-- `o3d.geometry.TriangleMesh.create_box(width, height, depth)`:
corner at the origin, extending `width`/`height`/`depth` along x/y/z. -/
def create_box (width height depth : ℚ) : Box :=
  Box.mk (fun _ => 0) (![width, height, depth]) (fun _ => 0)

/-- `mesh.translate(t)` (relative translation, the Open3D default):
adds `t` to every vertex. -/
def Box.translateBy (b : Box) (t : Vec3) : Box :=
  Box.mk (b.bmin + t) (b.bmax + t) b.color

/-- `mesh.paint_uniform_color(c)`. -/
def Box.paint (b : Box) (c : Vec3) : Box :=
  Box.mk b.bmin b.bmax c

/-- World-space center of a box mesh: midpoint of its extreme corners. -/
def Box.center (b : Box) : Vec3 :=
  fun i => (b.bmin i + b.bmax i) / 2

/-- Per-axis half-extent of a box mesh: half the side length on each axis. -/
def Box.halfExtents (b : Box) : Vec3 :=
  fun i => (b.bmax i - b.bmin i) / 2

/-- First (shadowed, dead) definition of `create_colored_box` in the file:
builds the box from full dimensions `2*extent` and translates by
`center - extent`, centering the box at `center`. It is overridden by the
later definition and never called. -/
def create_colored_box_shadowed (center extent color : Vec3) : Box :=
  ((create_box (2 * extent 0) (2 * extent 1) (2 * extent 2)).translateBy
    (center - extent)).paint color

/-- Live (final) definition of `create_colored_box`: clamps each extent
component to at least `0.01`, builds the box from full dimensions
`2*extent`, translates it by `center` (not `center - extent`), and paints
it with `color`. -/
def create_colored_box (center extent color : Vec3) : Box :=
  ((create_box (2 * max (extent 0) (1/100)) (2 * max (extent 1) (1/100))
      (2 * max (extent 2) (1/100))).translateBy center).paint color

theorem create_colored_box_bmin (center extent color : Vec3) :
    (create_colored_box center extent color).bmin = center := by
  funext i
  simp [create_colored_box, create_box, Box.translateBy, Box.paint]

theorem create_colored_box_bmax (center extent color : Vec3) (i : Fin 3) :
    (create_colored_box center extent color).bmax i =
      2 * max (extent i) (1/100) + center i := by
  fin_cases i <;>
    simp [create_colored_box, create_box, Box.translateBy, Box.paint,
      Matrix.vecHead, Matrix.vecTail]

/-- C1 counterexample: with `center = (0,0,0)`, `extent = (1,1,1)`, the live
`create_colored_box` yields a box whose world-space center is `(1,1,1)`,
not the input center `(0,0,0)`. -/
theorem c1_center_not_preserved_cex :
    Box.center (create_colored_box (![0,0,0]) (![1,1,1]) (![1,0,0])) ≠ ![0,0,0] := by
  intro h
  have h0 := congrFun h 0
  have h1 := congrFun (create_colored_box_bmin (![0,0,0]) (![1,1,1]) (![1,0,0])) 0
  have h2 := create_colored_box_bmax (![0,0,0]) (![1,1,1]) (![1,0,0]) 0
  simp only [Box.center] at h0
  rw [h1, h2] at h0
  norm_num [Matrix.cons_val_zero] at h0

/-- C1 (amended): the live `create_colored_box` translates the corner-origin
box primitive by `center` (not `center - extent`), so the built box's minimum
corner equals the input `center` and its world-space center equals
`center + clamped extent` componentwise, not the input `center`. -/
theorem c1_box_center_shifted_by_clamped_extent :
    ∀ center extent color : Vec3,
      (create_colored_box center extent color).bmin = center ∧
      Box.center (create_colored_box center extent color) =
        fun i => center i + max (extent i) (1/100) := by
  intro c e col
  refine ⟨create_colored_box_bmin c e col, ?_⟩
  funext i
  have h1 := congrFun (create_colored_box_bmin c e col) i
  have h2 := create_colored_box_bmax c e col i
  simp only [Box.center, h1, h2]
  ring

/-- C4: the live `create_colored_box` clamps each extent component to at
least `0.01` before building geometry: the built box's half-extent on axis
`i` is `max (extent i) 0.01`, and whenever `extent i ≤ 0.01` (including
zero and negative values) it equals exactly `0.01`; the function is total,
so no error arises for degenerate extents after clamping. -/
theorem c4_extent_clamped_to_min :
    ∀ (center extent color : Vec3) (i : Fin 3),
      Box.halfExtents (create_colored_box center extent color) i =
        max (extent i) (1/100) ∧
      (extent i ≤ 1/100 →
        Box.halfExtents (create_colored_box center extent color) i = 1/100) := by
  intro c e col i
  have h1 := congrFun (create_colored_box_bmin c e col) i
  have h2 := create_colored_box_bmax c e col i
  have hmain : Box.halfExtents (create_colored_box c e col) i = max (e i) (1/100) := by
    simp only [Box.halfExtents, h1, h2]
    ring
  refine ⟨hmain, fun hle => ?_⟩
  rw [hmain, max_eq_right hle]

/-- Witness for C4 at `extent = (0,2,3)`, axis 0: the component `0 ≤ 0.01`
is clamped and the resulting half-extent is exactly `0.01`. -/
theorem c4_extent_clamped_to_min_witness :
    (0:ℚ) ≤ 1/100 ∧
      Box.halfExtents (create_colored_box (![0,0,0]) (![0,2,3]) (![1,0,0])) 0 = 1/100 :=
  ⟨by norm_num,
    by
      have h := (c4_extent_clamped_to_min (![0,0,0]) (![0,2,3]) (![1,0,0]) 0).2
      have h0 : (![0,2,3] : Vec3) 0 ≤ 1/100 := by norm_num
      simpa using h h0⟩

/-- Embedding of an Open3D `LineSet`: a point list, index pairs for the
line segments, and per-line colors. -/
structure LineSet where
  points : List Vec3
  lines : List (ℕ × ℕ)
  colors : List Vec3

/-- The four pixel-space image corners used by `create_camera_frustum`,
in source order: top-left, top-right, bottom-right, bottom-left. -/
def corners_2d (width height : ℚ) : List (ℚ × ℚ) :=
  [(0, 0), (width, 0), (width, height), (0, height)]

/-- Embedding of `create_camera_frustum`: unprojects the four image
corners through the inverse pinhole model at the given depth, maps them
to world frame by `R @ p + t`, prepends the camera center, and attaches
the fixed 8-segment line topology with uniform green line colors. -/
def create_camera_frustum (camera_translation : Vec3)
    (camera_rotation : Matrix (Fin 3) (Fin 3) ℚ)
    (fx fy cx cy width height depth : ℚ) : LineSet :=
  let cam_center := camera_translation
  let R := camera_rotation
  let corners_3d_cam : List Vec3 :=
    (corners_2d width height).map (fun uv =>
      ![(uv.1 - cx) * depth / fx, (uv.2 - cy) * depth / fy, depth])
  let corners_3d_world : List Vec3 :=
    corners_3d_cam.map (fun p => R.mulVec p + cam_center)
  let points : List Vec3 := cam_center :: corners_3d_world
  let lines : List (ℕ × ℕ) :=
    [(0, 1), (0, 2), (0, 3), (0, 4), (1, 2), (2, 3), (3, 4), (4, 1)]
  let colors : List Vec3 := lines.map (fun _ => ![0, 1, 0])
  LineSet.mk points lines colors

/-- The Python signature's default intrinsics:
`fx=500, fy=500, cx=320, cy=240, width=640, height=480, depth=5.0`. -/
def create_camera_frustum_defaults (t : Vec3)
    (R : Matrix (Fin 3) (Fin 3) ℚ) : LineSet :=
  create_camera_frustum t R 500 500 320 240 640 480 5

/-- The identity rotation, written as an explicit matrix. -/
def identityR : Matrix (Fin 3) (Fin 3) ℚ :=
  Matrix.of ![![1, 0, 0], ![0, 1, 0], ![0, 0, 1]]

theorem identityR_mulVec (v : Vec3) : identityR.mulVec v = v := by
  funext i
  fin_cases i <;>
    simp [identityR, Matrix.mulVec, Matrix.dotProduct, Fin.sum_univ_three,
      Matrix.vecHead, Matrix.vecTail]

/-- C2 counterexample: with the camera at the origin, identity rotation
and the default intrinsics, frustum point 1 is `(-3.2, -2.4, 5)`; it is
not `(-1.6, -1.2, 5)` as the claim states. -/
theorem c2_default_corner_values_cex :
    (create_camera_frustum_defaults (![0,0,0]) identityR).points.getD 1 default ≠
      ![-8/5, -6/5, 5] := by
  intro h
  have h0 := congrFun h 0
  norm_num [create_camera_frustum_defaults, create_camera_frustum, corners_2d,
    identityR, Matrix.mulVec, Matrix.dotProduct, Fin.sum_univ_three,
    Matrix.vecHead, Matrix.vecTail, List.getD_cons_succ, List.getD_cons_zero] at h0

/-- C2 (amended): for a camera at the world origin with identity rotation
and the default intrinsics (depth=5, fx=fy=500, cx=320, cy=240, width=640,
height=480), `create_camera_frustum` produces point 0 equal to `(0,0,0)`
and points 1-4 equal to `(-3.2,-2.4,5)`, `(3.2,-2.4,5)`, `(3.2,2.4,5)`,
`(-3.2,2.4,5)` exactly (the pinhole formula gives `(0-320)*5/500 = -3.2`,
not `-1.6`). -/
theorem c2_default_frustum_corner_values :
    (create_camera_frustum_defaults (![0,0,0]) identityR).points.getD 0 default
        = ![0, 0, 0] ∧
      (create_camera_frustum_defaults (![0,0,0]) identityR).points.getD 1 default
        = ![-16/5, -12/5, 5] ∧
      (create_camera_frustum_defaults (![0,0,0]) identityR).points.getD 2 default
        = ![16/5, -12/5, 5] ∧
      (create_camera_frustum_defaults (![0,0,0]) identityR).points.getD 3 default
        = ![16/5, 12/5, 5] ∧
      (create_camera_frustum_defaults (![0,0,0]) identityR).points.getD 4 default
        = ![-16/5, 12/5, 5] := by
  refine ⟨?_, ?_, ?_, ?_, ?_⟩ <;>
    · funext j
      fin_cases j <;>
        norm_num [create_camera_frustum_defaults, create_camera_frustum, corners_2d,
          identityR, Matrix.mulVec, Matrix.dotProduct, Fin.sum_univ_three,
          Matrix.vecHead, Matrix.vecTail, List.getD_cons_succ, List.getD_cons_zero]

/-- C5: for every pixel corner, intrinsics, depth, rotation and camera
position, `create_camera_frustum` unprojects corner `i` to the
camera-frame point `((u-cx)*depth/fx, (v-cy)*depth/fy, depth)` and stores
`R @ cam_point + t` as frustum point `i+1`. -/
theorem c5_pinhole_unprojection :
    ∀ (t : Vec3) (R : Matrix (Fin 3) (Fin 3) ℚ)
      (fx fy cx cy width height depth : ℚ) (i : Fin 4),
      (create_camera_frustum t R fx fy cx cy width height depth).points.getD
          (i.val + 1) default =
        R.mulVec
          (![(((corners_2d width height).getD i.val (0, 0)).1 - cx) * depth / fx,
             (((corners_2d width height).getD i.val (0, 0)).2 - cy) * depth / fy,
             depth]) + t := by
  intro t R fx fy cx cy width height depth i
  fin_cases i <;>
    simp [create_camera_frustum, corners_2d, List.getD_cons_zero,
      List.getD_cons_succ]

/-- C6: for every camera pose, rotation and intrinsics, the returned line
set has exactly 5 points and its line list is exactly the four spokes
`(0,1),(0,2),(0,3),(0,4)` followed by the four image-plane edges
`(1,2),(2,3),(3,4),(4,1)`. -/
theorem c6_five_points_eight_lines :
    ∀ (t : Vec3) (R : Matrix (Fin 3) (Fin 3) ℚ)
      (fx fy cx cy width height depth : ℚ),
      (create_camera_frustum t R fx fy cx cy width height depth).points.length = 5 ∧
      (create_camera_frustum t R fx fy cx cy width height depth).lines =
        [(0, 1), (0, 2), (0, 3), (0, 4), (1, 2), (2, 3), (3, 4), (4, 1)] := by
  intro t R fx fy cx cy width height depth
  exact ⟨rfl, rfl⟩

/-- C9: for every camera translation, rotation and intrinsics, point 0 of
the returned line set equals the camera translation exactly; the rotation
matrix and intrinsics have no effect on point 0. -/
theorem c9_point_zero_is_camera_center :
    ∀ (t : Vec3) (R : Matrix (Fin 3) (Fin 3) ℚ)
      (fx fy cx cy width height depth : ℚ),
      (create_camera_frustum t R fx fy cx cy width height depth).points.getD 0 default
          = t ∧
      ∀ (R2 : Matrix (Fin 3) (Fin 3) ℚ) (fx2 fy2 cx2 cy2 w2 h2 d2 : ℚ),
        (create_camera_frustum t R2 fx2 fy2 cx2 cy2 w2 h2 d2).points.getD 0 default =
          (create_camera_frustum t R fx fy cx cy width height depth).points.getD
            0 default := by
  intro t R fx fy cx cy width height depth
  refine ⟨?_, ?_⟩
  · simp [create_camera_frustum, List.getD_cons_zero]
  · intro R2 fx2 fy2 cx2 cy2 w2 h2 d2
    simp [create_camera_frustum, List.getD_cons_zero]

/-- An object record of the concept-graph JSON mapping. A field is `none`
when the corresponding key is absent from the record (a lookup then
raises `KeyError` in the script). `bbox_center` and `bbox_extent` are
raw JSON arrays of numbers, of arbitrary length. -/
structure ObjRecord where
  bbox_center : Option (List ℚ)
  bbox_extent : Option (List ℚ)
  id : Option ℕ

def keyErrorCenter : String := "KeyError: bbox_center"

def keyErrorExtent : String := "KeyError: bbox_extent"

def keyErrorId : String := "KeyError: id"

def shapeErrorMsg : String := "malformed center or extent"

/-- The log line printed by the loop's exception handler:
`Error creating box for object {id}: {e}`. -/
def errLogFor (i : ℕ) (msg : String) : String :=
  "Error creating box for object " ++ toString i ++ ": " ++ msg

/-- The driver's fixed 6-color palette:
red, green, blue, yellow, magenta, cyan. -/
def color_palette : List Vec3 :=
  [![1, 0, 0], ![0, 1, 0], ![0, 0, 1], ![1, 1, 0], ![1, 0, 1], ![0, 1, 1]]

/-- `color_palette[obj["id"] % len(color_palette)]`. -/
def colorFor (i : ℕ) : Vec3 :=
  color_palette.getD (i % color_palette.length) default

/-- The `create_colored_box(bbox_center, bbox_extent, color)` call as made
by the driver on raw JSON arrays: it fails (raising an exception inside
the call, e.g. an index error) when `center` is not a 3-vector or
`extent` has fewer than 3 components; otherwise it builds the box from
the first three components. -/
def create_colored_box_checked (center extent : List ℚ) (color : Vec3) :
    Except String Box :=
  match center, extent with
  | [x, y, z], ex0 :: ex1 :: ex2 :: _ =>
      Except.ok (create_colored_box (![x, y, z]) (![ex0, ex1, ex2]) color)
  | _, _ => Except.error shapeErrorMsg

/-- The driver's box loop over the loaded mapping's records, in iteration
order. The three field lookups happen before the `try` block, so a
missing key aborts the whole loop (`Except.error`); only a failure of the
`create_colored_box` call itself is caught, logged via `errLogFor`, and
skipped. Returns the collected geometry list and the log lines. -/
def runBoxLoop : List ObjRecord → Except String (List Box × List String)
  | [] => Except.ok ([], [])
  | obj :: rest =>
    match obj.bbox_center with
    | none => Except.error keyErrorCenter
    | some center =>
      match obj.bbox_extent with
      | none => Except.error keyErrorExtent
      | some extent =>
        match obj.id with
        | none => Except.error keyErrorId
        | some i =>
          match create_colored_box_checked center extent (colorFor i) with
          | Except.ok box =>
            match runBoxLoop rest with
            | Except.ok out => Except.ok (box :: out.1, out.2)
            | Except.error e => Except.error e
          | Except.error msg =>
            match runBoxLoop rest with
            | Except.ok out => Except.ok (out.1, errLogFor i msg :: out.2)
            | Except.error e => Except.error e

/-- A record with no `bbox_center` key. -/
def objMissingCenter : ObjRecord := ObjRecord.mk none (some [1, 1, 1]) (some 7)

/-- A fully well-formed record. -/
def objGood : ObjRecord := ObjRecord.mk (some [0, 0, 0]) (some [1, 1, 1]) (some 1)

/-- A record whose keys are all present but whose `bbox_extent` array has
only 2 components, so the `create_colored_box` call itself fails. -/
def objBadExtent : ObjRecord := ObjRecord.mk (some [0, 0, 0]) (some [1, 2]) (some 2)

/-- C3 counterexample: a record missing `bbox_center` aborts the whole
run (the `KeyError` is raised before the `try` block), so the subsequent
well-formed record is never processed — the claim that a bad record is
logged, excluded and the run continued is false for this failure mode. -/
theorem c3_missing_center_aborts_cex :
    runBoxLoop [objMissingCenter, objGood] = Except.error keyErrorCenter := by
  simp [runBoxLoop, objMissingCenter]

/-- C3 (amended): only an exception raised by the `create_colored_box`
call itself is caught: for a record whose `bbox_center`, `bbox_extent`
and `id` keys are all present, if the call fails then the driver logs the
object id and the error, excludes the record from the output geometry
list, and continues with the remaining records; a record missing one of
the three keys instead aborts the run before the `try` block. -/
theorem c3_builder_errors_logged_and_skipped :
    ∀ (obj : ObjRecord) (rest : List ObjRecord) (c e : List ℚ) (i : ℕ) (msg : String),
      obj.bbox_center = some c → obj.bbox_extent = some e → obj.id = some i →
      create_colored_box_checked c e (colorFor i) = Except.error msg →
      runBoxLoop (obj :: rest) =
        Except.map (fun out => (out.1, errLogFor i msg :: out.2)) (runBoxLoop rest) := by
  intro obj rest c e i msg hc he hi hfail
  simp only [runBoxLoop, hc, he, hi, hfail]
  cases runBoxLoop rest <;> simp [Except.map]

/-- Witness for C3 (amended): the record with a 2-component extent array
is logged and skipped, and the well-formed rest of the list is still
processed. -/
theorem c3_builder_errors_logged_and_skipped_witness :
    objBadExtent.bbox_center = some [0, 0, 0] ∧
      objBadExtent.bbox_extent = some [1, 2] ∧
      objBadExtent.id = some 2 ∧
      create_colored_box_checked [0, 0, 0] [1, 2] (colorFor 2) =
        Except.error shapeErrorMsg ∧
      runBoxLoop [objBadExtent, objGood] =
        Except.map (fun out => (out.1, errLogFor 2 shapeErrorMsg :: out.2))
          (runBoxLoop [objGood]) :=
  ⟨rfl, rfl, rfl, rfl,
    c3_builder_errors_logged_and_skipped objBadExtent [objGood] [0, 0, 0] [1, 2] 2
      shapeErrorMsg rfl rfl rfl rfl⟩

/-- C8: the driver's color assignment is `palette[id % 6]` over the fixed
palette red, green, blue, yellow, magenta, cyan, for every non-negative
integer id; the built box carries exactly that color. -/
theorem c8_color_is_palette_id_mod_6 :
    ∀ i : ℕ,
      colorFor i =
        ([![1, 0, 0], ![0, 1, 0], ![0, 0, 1], ![1, 1, 0], ![1, 0, 1], ![0, 1, 1]] :
          List Vec3).getD (i % 6) default ∧
      ∀ center extent : Vec3,
        (create_colored_box center extent (colorFor i)).color = colorFor i := by
  intro i
  exact ⟨rfl, fun center extent => rfl⟩

/-- C10: the three field lookups happen before the `try` block, so for a
record missing `bbox_center` (or, that key present, missing `bbox_extent`;
or those two present, missing `id`) the `KeyError` propagates uncaught and
terminates the run with that error, whatever records follow. -/
theorem c10_field_access_before_try_aborts :
    ∀ (obj : ObjRecord) (rest : List ObjRecord),
      (obj.bbox_center = none →
        runBoxLoop (obj :: rest) = Except.error keyErrorCenter) ∧
      (∀ c, obj.bbox_center = some c → obj.bbox_extent = none →
        runBoxLoop (obj :: rest) = Except.error keyErrorExtent) ∧
      (∀ c e, obj.bbox_center = some c → obj.bbox_extent = some e → obj.id = none →
        runBoxLoop (obj :: rest) = Except.error keyErrorId) := by
  intro obj rest
  refine ⟨fun h => ?_, fun c hc he => ?_, fun c e hc he hi => ?_⟩
  · simp [runBoxLoop, h]
  · simp [runBoxLoop, hc, he]
  · simp [runBoxLoop, hc, he, hi]

/-- Witness for C10: the record without a `bbox_center` key terminates
the run with the corresponding `KeyError`. -/
theorem c10_field_access_before_try_aborts_witness :
    objMissingCenter.bbox_center = none ∧
      runBoxLoop [objMissingCenter] = Except.error keyErrorCenter :=
  ⟨rfl, (c10_field_access_before_try_aborts objMissingCenter []).1 rfl⟩

/-- `np.deg2rad`: degrees to radians. -/
noncomputable def deg2rad (x : ℝ) : ℝ := x * Real.pi / 180

/-- The driver's rotation matrix, transcribed row by row from the source:
yaw/pitch/roll are given in degrees, converted to radians, and plugged
into the closed-form 3x3 formula whose third row is
`(-sin pitch, cos pitch * sin roll, cos pitch * cos roll)`. -/
noncomputable def rotation_matrix (yawDeg pitchDeg rollDeg : ℝ) :
    Matrix (Fin 3) (Fin 3) ℝ :=
  let yaw := deg2rad yawDeg
  let pitch := deg2rad pitchDeg
  let roll := deg2rad rollDeg
  Matrix.of
    ![![Real.cos yaw * Real.cos pitch,
        Real.cos yaw * Real.sin pitch * Real.sin roll - Real.sin yaw * Real.cos roll,
        Real.cos yaw * Real.sin pitch * Real.cos roll + Real.sin yaw * Real.sin roll],
      ![Real.sin yaw * Real.cos pitch,
        Real.sin yaw * Real.sin pitch * Real.sin roll + Real.cos yaw * Real.cos roll,
        Real.sin yaw * Real.sin pitch * Real.cos roll - Real.cos yaw * Real.sin roll],
      ![-Real.sin pitch,
        Real.cos pitch * Real.sin roll,
        Real.cos pitch * Real.cos roll]]

/-- Elementary rotation about the z axis, by the yaw angle. -/
noncomputable def Rz (a : ℝ) : Matrix (Fin 3) (Fin 3) ℝ :=
  Matrix.of ![![Real.cos a, -Real.sin a, 0],
    ![Real.sin a, Real.cos a, 0],
    ![0, 0, 1]]

/-- Elementary rotation about the y axis, by the pitch angle. -/
noncomputable def Ry (a : ℝ) : Matrix (Fin 3) (Fin 3) ℝ :=
  Matrix.of ![![Real.cos a, 0, Real.sin a],
    ![0, 1, 0],
    ![-Real.sin a, 0, Real.cos a]]

/-- Elementary rotation about the x axis, by the roll angle. -/
noncomputable def Rx (a : ℝ) : Matrix (Fin 3) (Fin 3) ℝ :=
  Matrix.of ![![1, 0, 0],
    ![0, Real.cos a, -Real.sin a],
    ![0, Real.sin a, Real.cos a]]

/-- C7: for every yaw, pitch and roll in degrees, the driver's closed-form
rotation matrix equals the intrinsic Tait-Bryan composition
`Rz(yaw) * Ry(pitch) * Rx(roll)` of elementary rotations, all angles
converted to radians. -/
theorem c7_rotation_matrix_is_zyx_composition :
    ∀ yaw pitch roll : ℝ,
      rotation_matrix yaw pitch roll =
        Rz (deg2rad yaw) * Ry (deg2rad pitch) * Rx (deg2rad roll) := by
  intro yaw pitch roll
  ext i j
  fin_cases i <;> fin_cases j <;>
    simp [rotation_matrix, Rz, Ry, Rx, Matrix.mul_apply, Fin.sum_univ_three,
      Matrix.vecHead, Matrix.vecTail] <;>
    ring
